import Mathlib

/-!
Shallow embedding of the core simulation engine of the wealth-simulator
repository (src/simulator.py and the submit handler of src/app.py), with
theorems checking the natural-language specification against it.

Conventions of the embedding:
* Python floats are modelled as rationals (ℚ); Python ints as ℤ (or ℕ for
  the turn counter, which is only ever incremented from 1).
* Python `int(x)` (truncation toward zero) is `pyInt`.
* Python dictionaries with a fixed key set become structures; the fixed
  string-keyed tables `RECOMMENDATION_EFFECTS`, `COMM_STYLE_EFFECTS` and
  `RISK_STOCK_RANGES` become functions out of closed enumeration types,
  one constructor per key, carrying the exact numeric constants of the
  source.  The exact dictionary key strings are kept (`recommendation_key`,
  `comm_style_key`) because `calculate_career_score` tests substrings of
  them.
* Display-only strings (client names, message text, breakdown lines) are
  modelled by tags: they never influence any numeric state.
-/

namespace WealthSim

/-- Python `clamp(value, minimum, maximum)` from simulator.py:
`max(minimum, min(maximum, value))`. -/
def clamp {α : Type} [LinearOrder α] (value lo hi : α) : α :=
  max lo (min hi value)

/-- Python `int()` applied to a float/rational: truncation toward zero. -/
def pyInt (q : ℚ) : ℤ := if 0 ≤ q then ⌊q⌋ else ⌈q⌉

/-- The portfolio allocation dictionary `{"stocks": _, "bonds": _, "cash": _}`. -/
structure Portfolio where
  stocks : ℚ
  bonds : ℚ
  cash : ℚ
  deriving DecidableEq

/-- Risk tolerance, drawn from `["low", "medium", "high"]`. -/
inductive RiskTol
  | low
  | medium
  | high
  deriving DecidableEq

/-- The five keys of `RECOMMENDATION_EFFECTS`. -/
inductive Recommendation
  | stayTheCourse
  | smallDeRisk
  | largerDeRisk
  | moveHeavilyToCash
  | increaseRisk
  deriving DecidableEq

/-- The exact dictionary key string of each recommendation in
`RECOMMENDATION_EFFECTS` (used by `calculate_career_score` via substring
tests). -/
def recommendation_key : Recommendation → String
  | .stayTheCourse => "Stay the course (no change)"
  | .smallDeRisk => "Small de-risk (−10% stocks → bonds)"
  | .largerDeRisk => "Larger de-risk (−20% stocks → bonds/cash)"
  | .moveHeavilyToCash => "Move heavily to cash (defensive)"
  | .increaseRisk => "Increase risk (more stocks)"

/-- `RECOMMENDATION_EFFECTS[...]["stock_shift"]`. -/
def stock_shift : Recommendation → ℚ
  | .stayTheCourse => 0
  | .smallDeRisk => -(10/100)
  | .largerDeRisk => -(20/100)
  | .moveHeavilyToCash => -(35/100)
  | .increaseRisk => 15/100

/-- `RECOMMENDATION_EFFECTS[...]["bond_shift"]`. -/
def bond_shift : Recommendation → ℚ
  | .stayTheCourse => 0
  | .smallDeRisk => 10/100
  | .largerDeRisk => 12/100
  | .moveHeavilyToCash => -(5/100)
  | .increaseRisk => -(10/100)

/-- `RECOMMENDATION_EFFECTS[...]["cash_shift"]`. -/
def cash_shift : Recommendation → ℚ
  | .stayTheCourse => 0
  | .smallDeRisk => 0
  | .largerDeRisk => 8/100
  | .moveHeavilyToCash => 40/100
  | .increaseRisk => -(5/100)

/-- The `(d_trust, d_anxiety, d_satisfaction)` triple of
`RECOMMENDATION_EFFECTS` (recommendations have no engagement effect). -/
def recommendation_deltas : Recommendation → ℤ × ℤ × ℤ
  | .stayTheCourse => (2, 0, 1)
  | .smallDeRisk => (3, -5, 3)
  | .largerDeRisk => (4, -8, 4)
  | .moveHeavilyToCash => (2, -12, 2)
  | .increaseRisk => (-2, 5, -2)

/-- First phase of `apply_recommendation`: add the shift triple to the
allocation, then clamp each fraction to [0, 1]. -/
def clamped_alloc (p : Portfolio) (r : Recommendation) : Portfolio where
  stocks := clamp (p.stocks + stock_shift r) 0 1
  bonds := clamp (p.bonds + bond_shift r) 0 1
  cash := clamp (p.cash + cash_shift r) 0 1

/-- Second phase of `apply_recommendation`: `total = sum(...)`;
`if total > 0:` divide every fraction by `total`, else leave unchanged. -/
def renormalize (p : Portfolio) : Portfolio :=
  let total := p.stocks + p.bonds + p.cash
  if 0 < total then
    { stocks := p.stocks / total, bonds := p.bonds / total, cash := p.cash / total }
  else p

/-- `apply_recommendation(client, recommendation_key)` (simulator.py,
lines 324–346), restricted to its effect on `client.portfolio`: shift,
clamp each fraction to [0, 1], renormalize.  (The Python function also
returns the effect record for display; that record is the constant table
entry and carries no state.) -/
def apply_recommendation (p : Portfolio) (r : Recommendation) : Portfolio :=
  renormalize (clamped_alloc p r)

/-- The `Client` class of simulator.py: fixed personality traits, risk
profile, dynamic emotional state, and portfolio allocation.  The identity
fields (`name`, `goal`) are display-only strings and are omitted: they feed
only message text, never any numeric state. -/
structure Client where
  loss_aversion : ℤ
  trust_propensity : ℤ
  control_preference : ℤ
  recency_bias : ℤ
  risk_tolerance : RiskTol
  anxiety : ℤ
  trust : ℤ
  satisfaction : ℤ
  engagement : ℤ
  portfolio : Portfolio
  deriving DecidableEq

/-- The dict returned by `Client.apply_emotion_deltas` (and stored in the
turn log as `emotional_changes`): the realized per-field change. -/
structure EmotionalDeltas where
  trust : ℤ
  anxiety : ℤ
  satisfaction : ℤ
  engagement : ℤ
  deriving DecidableEq

/-- `Client.apply_emotion_deltas` (simulator.py, lines 109–132): add each
delta to the corresponding field, clamp to [0, 100], and return the updated
client together with the realized (post minus pre) change per field. -/
def Client.apply_emotion_deltas (c : Client)
    (d_trust d_anxiety d_satisfaction d_engagement : ℤ) :
    Client × EmotionalDeltas :=
  let c' := { c with
    trust := clamp (c.trust + d_trust) 0 100
    anxiety := clamp (c.anxiety + d_anxiety) 0 100
    satisfaction := clamp (c.satisfaction + d_satisfaction) 0 100
    engagement := clamp (c.engagement + d_engagement) 0 100 }
  (c', { trust := c'.trust - c.trust
         anxiety := c'.anxiety - c.anxiety
         satisfaction := c'.satisfaction - c.satisfaction
         engagement := c'.engagement - c.engagement })

/-- The invariant on the dynamic emotional state: all four fields in
[0, 100]. -/
def emotions_in_bounds (c : Client) : Prop :=
  0 ≤ c.trust ∧ c.trust ≤ 100 ∧ 0 ≤ c.anxiety ∧ c.anxiety ≤ 100 ∧
  0 ≤ c.satisfaction ∧ c.satisfaction ≤ 100 ∧
  0 ≤ c.engagement ∧ c.engagement ≤ 100

instance (c : Client) : Decidable (emotions_in_bounds c) := by
  unfold emotions_in_bounds
  infer_instance

/-- A whole sequence of `apply_emotion_deltas` calls, keeping only the
client state. -/
def apply_emotion_delta_list (c : Client) (l : List (ℤ × ℤ × ℤ × ℤ)) :
    Client :=
  l.foldl (fun c d => (c.apply_emotion_deltas d.1 d.2.1 d.2.2.1 d.2.2.2).1) c

/-- A concrete client used by the witnesses (traits and state all inside
their generated ranges; the starting allocation of `Client.__init__`). -/
def sampleClient : Client where
  loss_aversion := 50
  trust_propensity := 50
  control_preference := 50
  recency_bias := 50
  risk_tolerance := .high
  anxiety := 40
  trust := 50
  satisfaction := 55
  engagement := 60
  portfolio := { stocks := 7/10, bonds := 1/4, cash := 1/20 }

/-- The five keys of `COMM_STYLE_EFFECTS`. -/
inductive CommStyle
  | empathize
  | dataFocused
  | firmBoundary
  | agreeAct
  | dismissive
  deriving DecidableEq

/-- The exact dictionary key string of each communication style in
`COMM_STYLE_EFFECTS` (used by `calculate_career_score` via substring
tests). -/
def comm_style_key : CommStyle → String
  | .empathize => "Empathize + explain calmly"
  | .dataFocused => "Data-focused reassurance"
  | .firmBoundary => "Firm boundary (stick to the plan)"
  | .agreeAct => "Agree and act quickly"
  | .dismissive => "Dismissive / minimize concern"

/-- The `(d_trust, d_anxiety, d_satisfaction, d_engagement)` quadruple of
`COMM_STYLE_EFFECTS`. -/
def comm_style_deltas : CommStyle → ℤ × ℤ × ℤ × ℤ
  | .empathize => (8, -10, 5, 3)
  | .dataFocused => (4, -5, 3, 2)
  | .firmBoundary => (2, -3, 1, 1)
  | .agreeAct => (3, -6, 4, 2)
  | .dismissive => (-10, 8, -8, -6)

/-- The six keys of `MARKET_REGIMES`. -/
inductive Regime
  | bullMarket
  | bearMarket
  | marketCrisis
  | recovery
  | sidewaysFlat
  | rateShock
  deriving DecidableEq

/-- The `client_mood_shift` constant of each regime in `MARKET_REGIMES`. -/
def client_mood_shift : Regime → ℤ
  | .bullMarket => -5
  | .bearMarket => 12
  | .marketCrisis => 25
  | .recovery => -8
  | .sidewaysFlat => 0
  | .rateShock => 10

/-- The dict returned by `generate_market_turn` (minus the description
string): regime, per-asset returns, and the regime's mood shift.  The
returns are drawn at random from the regime's ranges, so they stay
unconstrained parameters here. -/
structure MarketTurn where
  regime : Regime
  stock_return : ℚ
  bond_return : ℚ
  cash_return : ℚ
  mood_shift : ℤ
  deriving DecidableEq

/-- `calculate_portfolio_return(portfolio, market)`: the allocation-weighted
sum of the per-asset returns. -/
def calculate_portfolio_return (p : Portfolio) (m : MarketTurn) : ℚ :=
  p.stocks * m.stock_return + p.bonds * m.bond_return + p.cash * m.cash_return

/-- `RISK_STOCK_RANGES`: the target stock-fraction band per risk
tolerance. -/
def RISK_STOCK_RANGES : RiskTol → ℚ × ℚ
  | .low => (10/100, 40/100)
  | .medium => (40/100, 70/100)
  | .high => (70/100, 95/100)

/-- Tag for the message emitted by `check_allocation_fit` (the Python
message is an f-string naming the client; only which message was emitted
matters to the engine). -/
inductive FitMessage
  | tooConservative
  | tooAggressive
  deriving DecidableEq

/-- `check_allocation_fit(client)` (simulator.py, lines 349–380): compares
the current stock fraction against the risk-tolerance band and returns
`(d_trust, d_anxiety, d_satisfaction, d_engagement, message)`. -/
def check_allocation_fit (c : Client) : ℤ × ℤ × ℤ × ℤ × Option FitMessage :=
  let lo := (RISK_STOCK_RANGES c.risk_tolerance).1
  let hi := (RISK_STOCK_RANGES c.risk_tolerance).2
  let stock_pct := c.portfolio.stocks
  if stock_pct < lo - 5/100 then
    let gap := lo - stock_pct
    (0, 0, -(pyInt (gap * 30)), -(pyInt (gap * 20)), some .tooConservative)
  else if hi + 5/100 < stock_pct then
    let gap := stock_pct - hi
    ((if 60 < c.anxiety then -(pyInt (gap * 25)) else 0),
      pyInt (gap * 40), -(pyInt (gap * 15)), 0, some .tooAggressive)
  else
    (0, 0, 0, 0, none)

/-- Step 4 of `calculate_full_turn_deltas`: `trust_mult = 0.75 +
(trust_propensity / 100) * 0.5`. -/
def trust_mult (c : Client) : ℚ :=
  75/100 + ((c.trust_propensity : ℚ) / 100) * (5/10)

/-- Step 4 of `calculate_full_turn_deltas`: `anxiety_mult = 0.75 +
(loss_aversion / 100) * 0.6`. -/
def anxiety_mult (c : Client) : ℚ :=
  75/100 + ((c.loss_aversion : ℚ) / 100) * (6/10)

/-- The trust half of step 4: `if d_trust > 0: d_trust = int(d_trust *
trust_mult)`. -/
def apply_trust_mult (c : Client) (d : ℤ) : ℤ :=
  if 0 < d then pyInt (d * trust_mult c) else d

/-- The anxiety half of step 4: positive deltas are multiplied by
`anxiety_mult`, negative ones divided by it, zero left alone. -/
def apply_anxiety_mult (c : Client) (d : ℤ) : ℤ :=
  if 0 < d then pyInt (d * anxiety_mult c)
  else if d < 0 then pyInt (d / anxiety_mult c)
  else d

/-- Tags for the human-readable breakdown lines of
`calculate_full_turn_deltas` (the Python strings, minus formatting). -/
inductive BreakdownLine
  | marketShift (pts : ℤ)
  | communication (s : CommStyle)
  | recommendation (r : Recommendation)
  | allocationFit (m : FitMessage)
  | writtenResponse
  deriving DecidableEq

/-- The result of `calculate_full_turn_deltas`: the four final deltas plus
the breakdown list. -/
structure TurnDeltas where
  d_trust : ℤ
  d_anxiety : ℤ
  d_satisfaction : ℤ
  d_engagement : ℤ
  breakdown : List BreakdownLine
  deriving DecidableEq

/-- `calculate_full_turn_deltas(client, comm_style_key, recommendation_key,
market, portfolio_return)` (simulator.py, lines 383–448): market-driven
anxiety, communication effect, recommendation effect, trait multipliers,
allocation fit, final clamps.  (The `portfolio_return` parameter is unused
in the Python body as well.) -/
def calculate_full_turn_deltas (c : Client) (comm : CommStyle)
    (rec : Recommendation) (market : MarketTurn)
    (portfolio_return : ℚ) : TurnDeltas :=
  let base_anxiety_shift : ℚ := (market.mood_shift : ℚ) * ((c.loss_aversion : ℚ) / 100)
  let a0 : ℤ := pyInt base_anxiety_shift
  let lines0 : List BreakdownLine := if a0 ≠ 0 then [.marketShift a0] else []
  let cd := comm_style_deltas comm
  let t1 := 0 + cd.1
  let a1 := a0 + cd.2.1
  let s1 := 0 + cd.2.2.1
  let e1 := 0 + cd.2.2.2
  let lines1 := lines0 ++ [.communication comm]
  let rd := recommendation_deltas rec
  let t2 := t1 + rd.1
  let a2 := a1 + rd.2.1
  let s2 := s1 + rd.2.2
  let lines2 := lines1 ++ [.recommendation rec]
  let t3 := apply_trust_mult c t2
  let a3 := apply_anxiety_mult c a2
  let fit := check_allocation_fit c
  let t4 := t3 + fit.1
  let a4 := a3 + fit.2.1
  let s4 := s2 + fit.2.2.1
  let e4 := e1 + fit.2.2.2.1
  let lines3 := match fit.2.2.2.2 with
    | some m => lines2 ++ [.allocationFit m]
    | none => lines2
  { d_trust := clamp t4 (-20) 20
    d_anxiety := clamp a4 (-25) 25
    d_satisfaction := clamp s4 (-15) 15
    d_engagement := clamp e4 (-12) 12
    breakdown := lines3 }

/-- The six return values of `get_client_intent`. -/
inductive Intent
  | override_threat
  | panic
  | concerned
  | greedy
  | confident_checkin
  | neutral_checkin
  deriving DecidableEq

/-- `get_client_intent(client, portfolio_return)` (simulator.py, lines
455–470): classifies the client's disposition, first match wins. -/
def get_client_intent (c : Client) (portfolio_return : ℚ) : Intent :=
  if 80 ≤ c.anxiety ∨ c.trust < 20 then .override_threat
  else if 65 ≤ c.anxiety ∧ portfolio_return < -(5/100) then .panic
  else if 55 ≤ c.anxiety ∨ portfolio_return < -(3/100) then .concerned
  else if 8/100 < portfolio_return ∧ 65 < c.recency_bias then .greedy
  else if 70 < c.trust ∧ 65 < c.satisfaction then .confident_checkin
  else .neutral_checkin

/-- Python `str.lower()` over the character list (the key strings are
ASCII, where `Char.toLower` agrees with Python). -/
def py_lower (l : List Char) : List Char := l.map Char.toLower

/-- Python `needle in haystack` substring membership over character
lists. -/
def list_contains_sub (haystack needle : List Char) : Bool :=
  (List.range (haystack.length + 1)).any
    (fun i => ((haystack.drop i).take needle.length) == needle)

/-- The exact dictionary key string of each regime in `MARKET_REGIMES`,
as stored in log entries and compared by `calculate_career_score`. -/
def regime_key : Regime → String
  | .bullMarket => "Bull Market"
  | .bearMarket => "Bear Market"
  | .marketCrisis => "Market Crisis"
  | .recovery => "Recovery"
  | .sidewaysFlat => "Sideways / Flat"
  | .rateShock => "Rate Shock"

/-- One entry of `st.session_state.log` as appended by the submit handler
of app.py (lines 701–709). -/
structure LogEntry where
  turn : ℕ
  regime : Regime
  portfolio_return : ℚ
  portfolio_value : ℚ
  comm_style : CommStyle
  recommendation : Recommendation
  emotional_changes : EmotionalDeltas
  deriving DecidableEq

/-- Python `round()` to the nearest integer, ties to even. -/
def pyRound (q : ℚ) : ℤ :=
  let f := ⌊q⌋
  let r := q - f
  if r < 1/2 then f
  else if 1/2 < r then f + 1
  else if Even f then f else f + 1

/-- Python `round(x, 1)`. -/
def pyRound1 (q : ℚ) : ℚ := (pyRound (q * 10) : ℚ) / 10

/-- The substring needle of the panic-move count in
`calculate_career_score`. -/
def heavily_to_cash_needle : List Char := "heavily to cash".toList

/-- The substring needle of the aggressive-swing count in
`calculate_career_score`. -/
def increase_risk_needle : List Char := "increase risk".toList

/-- The first element of the "good" communication-style fragments tested
during crisis turns. -/
def empathize_fragment : String := "Empathize"

/-- The second "good" communication-style fragment. -/
def data_focused_fragment : String := "Data-focused"

/-- The third "good" communication-style fragment. -/
def firm_boundary_fragment : String := "Firm boundary"

/-- The list `["Empathize", "Data-focused", "Firm boundary"]` of
`calculate_career_score`. -/
def good_crisis_fragments : List String :=
  [empathize_fragment, data_focused_fragment, firm_boundary_fragment]

/-- The `breakdown` dict returned by `calculate_career_score`. -/
structure ScoreBreakdown where
  portfolio_score : ℤ
  relationship_score : ℤ
  risk_score : ℤ
  crisis_score : ℤ
  total_return_pct : ℚ
  benchmark_pct : ℚ
  panic_moves : ℕ
  crisis_turns : ℕ
  deriving DecidableEq

/-- `calculate_career_score(log, client, final_portfolio_value,
starting_value=100_000)` (simulator.py, lines 486–583).  An empty log
short-circuits to `(0, {})`, modelled as `(0, none)`. -/
def calculate_career_score (log : List LogEntry) (client : Client)
    (final_portfolio_value : ℚ) (starting_value : ℚ) :
    ℤ × Option ScoreBreakdown :=
  if log.isEmpty then (0, none)
  else
    let total_return := (final_portfolio_value - starting_value) / starting_value
    let turns : ℕ := log.length
    let benchmark_return : ℚ := 25/1000 * turns
    let portfolio_score : ℤ :=
      if benchmark_return * (12/10) ≤ total_return then 100
      else if benchmark_return ≤ total_return then 80
      else if 0 ≤ total_return then 60
      else if -(10/100) ≤ total_return then 35
      else 10
    let relationship_score : ℚ :=
      (client.trust : ℚ) * (35/100) + (client.satisfaction : ℚ) * (30/100) +
        ((100 : ℚ) - (client.anxiety : ℚ)) * (20/100) +
        (client.engagement : ℚ) * (15/100)
    let panic_moves : ℕ :=
      (log.filter (fun e =>
        list_contains_sub (py_lower (recommendation_key e.recommendation).toList)
          heavily_to_cash_needle)).length
    let aggressive_swings : ℕ :=
      (log.filter (fun e =>
        list_contains_sub (py_lower (recommendation_key e.recommendation).toList)
          increase_risk_needle &&
        [regime_key .bearMarket, regime_key .marketCrisis].contains
          (regime_key e.regime))).length
    let bad_moves : ℤ := (panic_moves : ℤ) + (aggressive_swings : ℤ)
    let risk_score : ℤ := max 0 (100 - bad_moves * 20)
    let crisis_list := log.filter (fun e =>
      [regime_key .bearMarket, regime_key .marketCrisis,
        regime_key .rateShock].contains (regime_key e.regime))
    let crisis_score : ℤ :=
      if crisis_list.isEmpty then 70
      else
        let good_crisis_comms : ℕ := (crisis_list.filter (fun e =>
          good_crisis_fragments.any
            (fun good => list_contains_sub (comm_style_key e.comm_style).toList
              good.toList))).length
        pyInt (((good_crisis_comms : ℚ) / (crisis_list.length : ℚ)) * 100)
    let weighted : ℤ := pyInt ((portfolio_score : ℚ) * (25/100) +
      relationship_score * (35/100) + (risk_score : ℚ) * (25/100) +
      (crisis_score : ℚ) * (15/100))
    let final_score : ℤ := clamp weighted 0 100
    (final_score,
     some { portfolio_score := portfolio_score
            relationship_score := pyInt relationship_score
            risk_score := risk_score
            crisis_score := crisis_score
            total_return_pct := pyRound1 (total_return * 100)
            benchmark_pct := pyRound1 (benchmark_return * 100)
            panic_moves := panic_moves
            crisis_turns := crisis_list.length })

/-- A concrete four-turn log used by the C7 witness. -/
def sampleLog : List LogEntry :=
  [{ turn := 1, regime := .bullMarket, portfolio_return := 3/100,
     portfolio_value := 103000, comm_style := .empathize,
     recommendation := .stayTheCourse, emotional_changes := ⟨1, -2, 1, 1⟩ },
   { turn := 2, regime := .sidewaysFlat, portfolio_return := 1/100,
     portfolio_value := 104030, comm_style := .dataFocused,
     recommendation := .stayTheCourse, emotional_changes := ⟨1, 0, 1, 0⟩ },
   { turn := 3, regime := .bearMarket, portfolio_return := -(2/100),
     portfolio_value := 101949, comm_style := .firmBoundary,
     recommendation := .smallDeRisk, emotional_changes := ⟨2, 3, 1, 1⟩ },
   { turn := 4, regime := .recovery, portfolio_return := 8/100,
     portfolio_value := 110000, comm_style := .empathize,
     recommendation := .stayTheCourse, emotional_changes := ⟨3, -4, 2, 1⟩ }]

/-- The four integer sub-scores of a successfully parsed grading response,
as they come out of `json.loads` (the feedback sentence is display-only and
omitted).  `none` at the call site stands for any failure of the external
call or of parsing — the whole `except` path. -/
structure RawGrades where
  empathy : ℤ
  clarity : ℤ
  alignment : ℤ
  professionalism : ℤ
  deriving DecidableEq

/-- The grades dict returned by `grade_free_text_ai` on success: the four
clamped sub-scores plus the derived deltas. -/
structure TextGrades where
  empathy : ℤ
  clarity : ℤ
  alignment : ℤ
  professionalism : ℤ
  d_trust : ℤ
  d_anxiety : ℤ
  d_satisfaction : ℤ
  deriving DecidableEq

/-- Python `str.strip()` over the character list. -/
def py_strip (l : List Char) : List Char :=
  ((l.dropWhile Char.isWhitespace).reverse.dropWhile Char.isWhitespace).reverse

/-- A five-character advisor text, below the grading threshold. -/
def short_text : List Char := "short".toList

/-- `grade_free_text_ai(user_text, context, intent)` (app.py, lines
123–196).  The external Groq call plus JSON parse is the `collab`
parameter: `some g` is a parsed response, `none` any failure (the `except`
path).  Short input returns `None` before any call is made, modelled by
the result not depending on `collab` at all. -/
def grade_free_text_ai (user_text : List Char) (collab : Option RawGrades) :
    Option TextGrades :=
  if user_text.isEmpty ∨ (py_strip user_text).length < 10 then none
  else
    match collab with
    | none => none
    | some g =>
      let e := clamp g.empathy (-2) 2
      let cl := clamp g.clarity (-2) 2
      let al := clamp g.alignment (-2) 2
      let pr := clamp g.professionalism (-2) 2
      let total := e + cl + al + pr
      some { empathy := e, clarity := cl, alignment := al, professionalism := pr
             d_trust := clamp (pyInt ((total : ℚ) * (8/10))) (-6) 6
             d_anxiety := clamp (pyInt (-(total : ℚ) * (6/10))) (-5) 5
             d_satisfaction := clamp (pyInt ((total : ℚ) * (5/10))) (-4) 4 }

/-- The per-session state of app.py (`st.session_state`), restricted to
the fields the core reads and writes on submit: client, turn counter,
portfolio value, the cached market turn and portfolio return, the turn
log, and the game-over flag. -/
structure SessionState where
  client : Client
  turn : ℕ
  portfolio_value : ℚ
  market : MarketTurn
  portfolio_return : ℚ
  log : List LogEntry
  game_over : Bool
  deriving DecidableEq

/-- The result of the effects phase of the submit handler: updated
client, new portfolio value, and the log entry to append. -/
structure TurnOutcome where
  client : Client
  portfolio_value : ℚ
  entry : LogEntry
  deriving DecidableEq

/-- The effects phase of the submit handler (app.py, lines 669–709):
grow the portfolio value by the cached return, apply the recommendation
to the allocation, compute the turn deltas, add the free-text grading
deltas when grading ran and succeeded, apply the emotion deltas, and
build the log entry. -/
def turn_effects (s : SessionState) (comm : CommStyle) (rec : Recommendation)
    (free_text : List Char) (collab : Option RawGrades) : TurnOutcome :=
  let pv := s.portfolio_value * (1 + s.portfolio_return)
  let c1 := { s.client with
    portfolio := apply_recommendation s.client.portfolio rec }
  let td := calculate_full_turn_deltas c1 comm rec s.market s.portfolio_return
  let text_grades :=
    if ¬free_text.isEmpty ∧ 10 ≤ (py_strip free_text).length then
      grade_free_text_ai free_text collab
    else none
  let d := match text_grades with
    | some g => (td.d_trust + g.d_trust, td.d_anxiety + g.d_anxiety,
        td.d_satisfaction + g.d_satisfaction)
    | none => (td.d_trust, td.d_anxiety, td.d_satisfaction)
  let res := c1.apply_emotion_deltas d.1 d.2.1 d.2.2 td.d_engagement
  { client := res.1
    portfolio_value := pv
    entry := {
      turn := s.turn
      regime := s.market.regime
      portfolio_return := s.portfolio_return
      portfolio_value := pv
      comm_style := comm
      recommendation := rec
      emotional_changes := res.2 } }

/-- The whole submit handler (app.py, lines 669–726): apply the turn
effects, append the log entry, then either set the game-over flag (when
the completed turn index is ≥ 10 or trust < 15 or engagement < 10) or
advance the turn counter and install the freshly generated market turn
(`new_market` stands for the `generate_market_turn()` draw). -/
def submit_turn (s : SessionState) (comm : CommStyle) (rec : Recommendation)
    (free_text : List Char) (collab : Option RawGrades)
    (new_market : MarketTurn) : SessionState :=
  let te := turn_effects s comm rec free_text collab
  if 10 ≤ s.turn ∨ te.client.trust < 15 ∨ te.client.engagement < 10 then
    { s with
      client := te.client
      portfolio_value := te.portfolio_value
      log := s.log ++ [te.entry]
      game_over := true }
  else
    { s with
      client := te.client
      portfolio_value := te.portfolio_value
      log := s.log ++ [te.entry]
      turn := s.turn + 1
      market := new_market
      portfolio_return :=
        calculate_portfolio_return te.client.portfolio new_market }

/-- A concrete market turn used by witnesses. -/
def sampleMarket : MarketTurn where
  regime := .sidewaysFlat
  stock_return := 1/100
  bond_return := 1/100
  cash_return := 1/200
  mood_shift := 0

/-- A concrete session on its 10th completed turn. -/
def sampleSession : SessionState where
  client := sampleClient
  turn := 10
  portfolio_value := 100000
  market := sampleMarket
  portfolio_return := 1/100
  log := []
  game_over := false

theorem le_clamp {α : Type} [LinearOrder α] (value lo hi : α) :
    lo ≤ clamp value lo hi :=
  le_max_left _ _

theorem clamp_le {α : Type} [LinearOrder α] (value lo hi : α) (h : lo ≤ hi) :
    clamp value lo hi ≤ hi :=
  max_le h (min_le_left _ _)

theorem clamp_eq_self {α : Type} [LinearOrder α] (value lo hi : α)
    (h1 : lo ≤ value) (h2 : value ≤ hi) : clamp value lo hi = value := by
  unfold clamp
  rw [min_eq_right h2, max_eq_right h1]

theorem pyInt_of_nonneg {q : ℚ} (h : 0 ≤ q) : pyInt q = ⌊q⌋ := by
  simp [pyInt, h]

theorem pyInt_of_neg {q : ℚ} (h : q < 0) : pyInt q = ⌈q⌉ := by
  simp [pyInt, not_le.mpr h]

theorem shift_sum_eq_zero (r : Recommendation) :
    stock_shift r + bond_shift r + cash_shift r = 0 := by
  cases r <;> norm_num [stock_shift, bond_shift, cash_shift]

theorem clamped_alloc_nonneg (p : Portfolio) (r : Recommendation) :
    0 ≤ (clamped_alloc p r).stocks ∧ 0 ≤ (clamped_alloc p r).bonds ∧
      0 ≤ (clamped_alloc p r).cash :=
  ⟨le_clamp _ _ _, le_clamp _ _ _, le_clamp _ _ _⟩

theorem clamp01_ge_third {x : ℚ} (h : 1/3 ≤ x) : 1/3 ≤ clamp x 0 1 :=
  le_trans (le_min (by norm_num) h) (le_max_right _ _)

/-- If the allocation is a valid distribution before the call, the clamped
allocation has positive total (at least one shifted fraction is ≥ 1/3 since
every shift triple sums to 0). -/
theorem clamped_alloc_total_pos (p : Portfolio) (r : Recommendation)
    (hsum : p.stocks + p.bonds + p.cash = 1) :
    0 < (clamped_alloc p r).stocks + (clamped_alloc p r).bonds +
      (clamped_alloc p r).cash := by
  obtain ⟨h1, h2, h3⟩ := clamped_alloc_nonneg p r
  have hshift := shift_sum_eq_zero r
  have hbig : 1/3 ≤ p.stocks + stock_shift r ∨ 1/3 ≤ p.bonds + bond_shift r ∨
      1/3 ≤ p.cash + cash_shift r := by
    by_contra hno
    push_neg at hno
    obtain ⟨a, b, c⟩ := hno
    linarith
  rcases hbig with h | h | h
  · have := clamp01_ge_third h
    simp only [clamped_alloc] at h1 h2 h3 ⊢
    linarith
  · have := clamp01_ge_third h
    simp only [clamped_alloc] at h1 h2 h3 ⊢
    linarith
  · have := clamp01_ge_third h
    simp only [clamped_alloc] at h1 h2 h3 ⊢
    linarith

/-- C1.  After `apply_recommendation` the three fractions are each in [0,1]
and sum to exactly 1 (given the Client invariant of non-negative fractions
summing to 1 before the call); and in the defensive edge case where all
three fractions are 0 after clamping, the renormalization step leaves the
allocation unchanged. -/
theorem apply_recommendation_invariant :
    (∀ (p : Portfolio) (r : Recommendation),
      0 ≤ p.stocks → 0 ≤ p.bonds → 0 ≤ p.cash →
      p.stocks + p.bonds + p.cash = 1 →
      0 ≤ (apply_recommendation p r).stocks ∧ (apply_recommendation p r).stocks ≤ 1 ∧
      0 ≤ (apply_recommendation p r).bonds ∧ (apply_recommendation p r).bonds ≤ 1 ∧
      0 ≤ (apply_recommendation p r).cash ∧ (apply_recommendation p r).cash ≤ 1 ∧
      (apply_recommendation p r).stocks + (apply_recommendation p r).bonds +
        (apply_recommendation p r).cash = 1) ∧
    (∀ (p : Portfolio) (r : Recommendation),
      (clamped_alloc p r).stocks = 0 → (clamped_alloc p r).bonds = 0 →
      (clamped_alloc p r).cash = 0 →
      apply_recommendation p r = clamped_alloc p r) := by
  constructor
  · intro p r _ _ _ hsum
    obtain ⟨h1, h2, h3⟩ := clamped_alloc_nonneg p r
    have htot := clamped_alloc_total_pos p r hsum
    set a := clamped_alloc p r with ha
    have hT : (0:ℚ) < a.stocks + a.bonds + a.cash := htot
    have hres : apply_recommendation p r =
        { stocks := a.stocks / (a.stocks + a.bonds + a.cash),
          bonds := a.bonds / (a.stocks + a.bonds + a.cash),
          cash := a.cash / (a.stocks + a.bonds + a.cash) } := by
      unfold apply_recommendation renormalize
      rw [← ha]
      simp only [hT, if_true]
    rw [hres]
    refine ⟨div_nonneg h1 hT.le, ?_, div_nonneg h2 hT.le, ?_,
      div_nonneg h3 hT.le, ?_, ?_⟩
    · exact (div_le_one hT).mpr (by linarith)
    · exact (div_le_one hT).mpr (by linarith)
    · exact (div_le_one hT).mpr (by linarith)
    · rw [div_add_div_same, div_add_div_same, div_self hT.ne']
  · intro p r hs hb hc
    unfold apply_recommendation renormalize
    rw [hs, hb, hc]
    norm_num

/-- Witness for C1 at concrete inputs: the starting allocation
{0.70, 0.25, 0.05} with the small de-risk recommendation for the main part,
and an (unreachable) all-negative allocation with "stay the course" for the
defensive part. -/
theorem apply_recommendation_invariant_witness :
    (0 ≤ (apply_recommendation ⟨7/10, 1/4, 1/20⟩ .smallDeRisk).stocks ∧
     (apply_recommendation ⟨7/10, 1/4, 1/20⟩ .smallDeRisk).stocks ≤ 1 ∧
     0 ≤ (apply_recommendation ⟨7/10, 1/4, 1/20⟩ .smallDeRisk).bonds ∧
     (apply_recommendation ⟨7/10, 1/4, 1/20⟩ .smallDeRisk).bonds ≤ 1 ∧
     0 ≤ (apply_recommendation ⟨7/10, 1/4, 1/20⟩ .smallDeRisk).cash ∧
     (apply_recommendation ⟨7/10, 1/4, 1/20⟩ .smallDeRisk).cash ≤ 1 ∧
     (apply_recommendation ⟨7/10, 1/4, 1/20⟩ .smallDeRisk).stocks +
       (apply_recommendation ⟨7/10, 1/4, 1/20⟩ .smallDeRisk).bonds +
       (apply_recommendation ⟨7/10, 1/4, 1/20⟩ .smallDeRisk).cash = 1) ∧
    apply_recommendation ⟨-1, -1, -1⟩ .stayTheCourse =
      clamped_alloc ⟨-1, -1, -1⟩ .stayTheCourse := by
  constructor
  · exact apply_recommendation_invariant.1 ⟨7/10, 1/4, 1/20⟩ .smallDeRisk
      (by norm_num) (by norm_num) (by norm_num) (by norm_num)
  · exact apply_recommendation_invariant.2 ⟨-1, -1, -1⟩ .stayTheCourse
      (by norm_num [clamped_alloc, clamp, stock_shift])
      (by norm_num [clamped_alloc, clamp, bond_shift])
      (by norm_num [clamped_alloc, clamp, cash_shift])

theorem apply_emotion_deltas_bounds (c : Client)
    (d_trust d_anxiety d_satisfaction d_engagement : ℤ) :
    emotions_in_bounds
      (c.apply_emotion_deltas d_trust d_anxiety d_satisfaction d_engagement).1 := by
  refine ⟨le_clamp _ _ _, clamp_le _ _ _ (by norm_num), le_clamp _ _ _,
    clamp_le _ _ _ (by norm_num), le_clamp _ _ _, clamp_le _ _ _ (by norm_num),
    le_clamp _ _ _, clamp_le _ _ _ (by norm_num)⟩

/-- C2.  Starting from a state with all four fields in [0,100], after
`apply_emotion_deltas` every field is again in [0,100], the returned
dict is the post-clamp value minus the pre-call value per field, and — by
iterating — every sequence of calls keeps every field in [0,100]. -/
theorem apply_emotion_deltas_spec :
    (∀ (c : Client) (d_trust d_anxiety d_satisfaction d_engagement : ℤ),
      emotions_in_bounds c →
      emotions_in_bounds
        (c.apply_emotion_deltas d_trust d_anxiety d_satisfaction d_engagement).1 ∧
      (c.apply_emotion_deltas d_trust d_anxiety d_satisfaction d_engagement).2 =
        { trust := (c.apply_emotion_deltas d_trust d_anxiety d_satisfaction
            d_engagement).1.trust - c.trust
          anxiety := (c.apply_emotion_deltas d_trust d_anxiety d_satisfaction
            d_engagement).1.anxiety - c.anxiety
          satisfaction := (c.apply_emotion_deltas d_trust d_anxiety
            d_satisfaction d_engagement).1.satisfaction - c.satisfaction
          engagement := (c.apply_emotion_deltas d_trust d_anxiety
            d_satisfaction d_engagement).1.engagement - c.engagement }) ∧
    (∀ (l : List (ℤ × ℤ × ℤ × ℤ)) (c : Client),
      emotions_in_bounds c →
      emotions_in_bounds (apply_emotion_delta_list c l)) := by
  constructor
  · intro c dt da ds de _
    exact ⟨apply_emotion_deltas_bounds c dt da ds de, rfl⟩
  · intro l
    induction l with
    | nil => intro c h; exact h
    | cons d tl ih =>
      intro c _
      exact ih _ (apply_emotion_deltas_bounds c d.1 d.2.1 d.2.2.1 d.2.2.2)

/-- Witness for C2: one call with deltas (+70, −100, +5, −3) from
`sampleClient`, and a two-call sequence. -/
theorem apply_emotion_deltas_spec_witness :
    (emotions_in_bounds
      (sampleClient.apply_emotion_deltas 70 (-100) 5 (-3)).1 ∧
     (sampleClient.apply_emotion_deltas 70 (-100) 5 (-3)).2 =
       { trust := (sampleClient.apply_emotion_deltas 70 (-100) 5 (-3)).1.trust -
           sampleClient.trust
         anxiety := (sampleClient.apply_emotion_deltas 70 (-100) 5 (-3)).1.anxiety -
           sampleClient.anxiety
         satisfaction := (sampleClient.apply_emotion_deltas 70 (-100) 5
           (-3)).1.satisfaction - sampleClient.satisfaction
         engagement := (sampleClient.apply_emotion_deltas 70 (-100) 5
           (-3)).1.engagement - sampleClient.engagement }) ∧
    emotions_in_bounds
      (apply_emotion_delta_list sampleClient [(70, -100, 5, -3), (-200, 300, 0, 0)]) := by
  constructor
  · exact apply_emotion_deltas_spec.1 sampleClient 70 (-100) 5 (-3) (by decide)
  · exact apply_emotion_deltas_spec.2 [(70, -100, 5, -3), (-200, 300, 0, 0)]
      sampleClient (by decide)

/-- C3.  The four deltas returned by `calculate_full_turn_deltas` always
satisfy the final clamp bounds: d_trust ∈ [−20,20], d_anxiety ∈ [−25,25],
d_satisfaction ∈ [−15,15], d_engagement ∈ [−12,12], for every client,
style, recommendation, market turn and portfolio return. -/
theorem calculate_full_turn_deltas_bounds (c : Client) (comm : CommStyle)
    (rec : Recommendation) (market : MarketTurn) (portfolio_return : ℚ) :
    -20 ≤ (calculate_full_turn_deltas c comm rec market portfolio_return).d_trust ∧
    (calculate_full_turn_deltas c comm rec market portfolio_return).d_trust ≤ 20 ∧
    -25 ≤ (calculate_full_turn_deltas c comm rec market portfolio_return).d_anxiety ∧
    (calculate_full_turn_deltas c comm rec market portfolio_return).d_anxiety ≤ 25 ∧
    -15 ≤ (calculate_full_turn_deltas c comm rec market portfolio_return).d_satisfaction ∧
    (calculate_full_turn_deltas c comm rec market portfolio_return).d_satisfaction ≤ 15 ∧
    -12 ≤ (calculate_full_turn_deltas c comm rec market portfolio_return).d_engagement ∧
    (calculate_full_turn_deltas c comm rec market portfolio_return).d_engagement ≤ 12 := by
  unfold calculate_full_turn_deltas
  exact ⟨le_clamp _ _ _, clamp_le _ _ _ (by norm_num), le_clamp _ _ _,
    clamp_le _ _ _ (by norm_num), le_clamp _ _ _, clamp_le _ _ _ (by norm_num),
    le_clamp _ _ _, clamp_le _ _ _ (by norm_num)⟩

/-- C4.  In step 4 of `calculate_full_turn_deltas`: a strictly positive
trust delta becomes `int(d * trust_mult)` while zero or negative trust
deltas pass through; a strictly positive anxiety delta becomes
`int(d * anxiety_mult)`, a strictly negative one `int(d / anxiety_mult)`,
and a zero anxiety delta passes through. -/
theorem trait_multiplier_step_spec (c : Client) (d : ℤ) :
    (0 < d → apply_trust_mult c d = pyInt (d * trust_mult c)) ∧
    (d ≤ 0 → apply_trust_mult c d = d) ∧
    (0 < d → apply_anxiety_mult c d = pyInt (d * anxiety_mult c)) ∧
    (d < 0 → apply_anxiety_mult c d = pyInt (d / anxiety_mult c)) ∧
    apply_anxiety_mult c 0 = 0 := by
  refine ⟨fun h => ?_, fun h => ?_, fun h => ?_, fun h => ?_, ?_⟩
  · unfold apply_trust_mult
    rw [if_pos h]
  · unfold apply_trust_mult
    rw [if_neg (not_lt.mpr h)]
  · unfold apply_anxiety_mult
    rw [if_pos h]
  · unfold apply_anxiety_mult
    rw [if_neg (not_lt.mpr h.le), if_pos h]
  · unfold apply_anxiety_mult
    norm_num

/-- Witness for C4 at `sampleClient` with deltas +5, −4 and 0. -/
theorem trait_multiplier_step_spec_witness :
    apply_trust_mult sampleClient 5 = pyInt (5 * trust_mult sampleClient) ∧
    apply_trust_mult sampleClient (-4) = -4 ∧
    apply_anxiety_mult sampleClient 5 = pyInt (5 * anxiety_mult sampleClient) ∧
    apply_anxiety_mult sampleClient (-4) =
      pyInt ((-4 : ℤ) / anxiety_mult sampleClient) ∧
    apply_anxiety_mult sampleClient 0 = 0 :=
  ⟨(trait_multiplier_step_spec sampleClient 5).1 (by norm_num),
   (trait_multiplier_step_spec sampleClient (-4)).2.1 (by norm_num),
   (trait_multiplier_step_spec sampleClient 5).2.2.1 (by norm_num),
   (trait_multiplier_step_spec sampleClient (-4)).2.2.2.1 (by norm_num),
   (trait_multiplier_step_spec sampleClient 0).2.2.2.2⟩

theorem risk_range_lo_le_hi (rt : RiskTol) :
    (RISK_STOCK_RANGES rt).1 ≤ (RISK_STOCK_RANGES rt).2 := by
  cases rt <;> norm_num [RISK_STOCK_RANGES]

/-- C5.  Whenever the stock fraction exceeds `hi + 0.05`, the
too-aggressive branch of `check_allocation_fit` fires with `gap = s − hi`:
anxiety `+int(gap*40)`, trust `−int(gap*25)` only when anxiety > 60 (else
0), satisfaction `−int(gap*15)`, engagement 0, and the "too aggressive"
message; and the too-conservative condition `s < lo − 0.05` cannot hold
simultaneously. -/
theorem check_allocation_fit_aggressive (c : Client)
    (h : (RISK_STOCK_RANGES c.risk_tolerance).2 + 5/100 < c.portfolio.stocks) :
    check_allocation_fit c =
      ((if 60 < c.anxiety then
          -(pyInt ((c.portfolio.stocks - (RISK_STOCK_RANGES c.risk_tolerance).2) * 25))
        else 0),
       pyInt ((c.portfolio.stocks - (RISK_STOCK_RANGES c.risk_tolerance).2) * 40),
       -(pyInt ((c.portfolio.stocks - (RISK_STOCK_RANGES c.risk_tolerance).2) * 15)),
       0, some .tooAggressive) ∧
    ¬(c.portfolio.stocks < (RISK_STOCK_RANGES c.risk_tolerance).1 - 5/100) := by
  have hlohi := risk_range_lo_le_hi c.risk_tolerance
  have hnc : ¬(c.portfolio.stocks < (RISK_STOCK_RANGES c.risk_tolerance).1 - 5/100) := by
    push_neg
    linarith
  refine ⟨?_, hnc⟩
  unfold check_allocation_fit
  rw [if_neg hnc, if_pos h]

/-- Witness for C5: a low-risk-tolerance client holding 70% stocks
(band hi = 0.40, so s > hi + 0.05). -/
theorem check_allocation_fit_aggressive_witness :
    check_allocation_fit { sampleClient with risk_tolerance := .low } =
      ((if 60 < ({ sampleClient with risk_tolerance := .low } : Client).anxiety then
          -(pyInt ((({ sampleClient with risk_tolerance := .low } : Client).portfolio.stocks -
            (RISK_STOCK_RANGES .low).2) * 25))
        else 0),
       pyInt ((({ sampleClient with risk_tolerance := .low } : Client).portfolio.stocks -
         (RISK_STOCK_RANGES .low).2) * 40),
       -(pyInt ((({ sampleClient with risk_tolerance := .low } : Client).portfolio.stocks -
         (RISK_STOCK_RANGES .low).2) * 15)),
       0, some .tooAggressive) ∧
    ¬(({ sampleClient with risk_tolerance := .low } : Client).portfolio.stocks <
      (RISK_STOCK_RANGES .low).1 - 5/100) :=
  check_allocation_fit_aggressive { sampleClient with risk_tolerance := .low }
    (by norm_num [sampleClient, RISK_STOCK_RANGES])

/-- C6.  `get_client_intent` is total and always yields one of the six
intents; and whenever anxiety ≥ 80 or trust < 20 it yields
`override_threat` regardless of the portfolio return and the remaining
fields. -/
theorem get_client_intent_total (c : Client) (portfolio_return : ℚ) :
    (get_client_intent c portfolio_return = .override_threat ∨
     get_client_intent c portfolio_return = .panic ∨
     get_client_intent c portfolio_return = .concerned ∨
     get_client_intent c portfolio_return = .greedy ∨
     get_client_intent c portfolio_return = .confident_checkin ∨
     get_client_intent c portfolio_return = .neutral_checkin) ∧
    (80 ≤ c.anxiety ∨ c.trust < 20 →
      get_client_intent c portfolio_return = .override_threat) := by
  constructor
  · cases h : get_client_intent c portfolio_return <;> simp
  · intro h
    unfold get_client_intent
    rw [if_pos h]

/-- Witness for C6: a client with trust = 10 (< 20) classifies as
`override_threat`, here at a large positive portfolio return. -/
theorem get_client_intent_total_witness :
    get_client_intent { sampleClient with trust := 10 } (42/100) =
      .override_threat :=
  (get_client_intent_total { sampleClient with trust := 10 } (42/100)).2
    (Or.inr (by norm_num [sampleClient]))

/-- C10.  With an empty turn log, `calculate_career_score` returns score 0
and an empty breakdown, for every client, final value and starting
value. -/
theorem career_score_empty_log (client : Client)
    (final_portfolio_value starting_value : ℚ) :
    calculate_career_score [] client final_portfolio_value starting_value =
      (0, none) :=
  rfl

/-- C7.  For every non-empty log the portfolio sub-score follows the tier
table on `total_return = (final − start)/start` against `benchmark =
0.025 × turn_count`; with 4 turns the benchmark is 0.10; and a total
return exactly equal to a positive benchmark lands in the 80 tier, not
100. -/
theorem career_portfolio_score_tiers (log : List LogEntry) (client : Client)
    (final_portfolio_value starting_value : ℚ) (hne : log ≠ []) :
    ((calculate_career_score log client final_portfolio_value
        starting_value).2.map ScoreBreakdown.portfolio_score) =
      some (if (25/1000 : ℚ) * log.length * (12/10) ≤
              (final_portfolio_value - starting_value) / starting_value then 100
            else if (25/1000 : ℚ) * log.length ≤
              (final_portfolio_value - starting_value) / starting_value then 80
            else if 0 ≤ (final_portfolio_value - starting_value) / starting_value
              then 60
            else if -(10/100) ≤
              (final_portfolio_value - starting_value) / starting_value then 35
            else 10) ∧
    (log.length = 4 → (25/1000 : ℚ) * log.length = 1/10) ∧
    ((final_portfolio_value - starting_value) / starting_value =
        (25/1000 : ℚ) * log.length →
      0 < (25/1000 : ℚ) * log.length →
      ((calculate_career_score log client final_portfolio_value
          starting_value).2.map ScoreBreakdown.portfolio_score) = some 80) := by
  obtain ⟨hd, tl, rfl⟩ := List.exists_cons_of_ne_nil hne
  have hmain : ((calculate_career_score (hd :: tl) client final_portfolio_value
      starting_value).2.map ScoreBreakdown.portfolio_score) =
      some (if (25/1000 : ℚ) * (hd :: tl).length * (12/10) ≤
              (final_portfolio_value - starting_value) / starting_value then 100
            else if (25/1000 : ℚ) * (hd :: tl).length ≤
              (final_portfolio_value - starting_value) / starting_value then 80
            else if 0 ≤ (final_portfolio_value - starting_value) / starting_value
              then 60
            else if -(10/100) ≤
              (final_portfolio_value - starting_value) / starting_value then 35
            else 10) := by
    simp only [calculate_career_score, List.isEmpty_cons, Bool.false_eq_true,
      if_false, Option.map_some]
    congr 1
  refine ⟨hmain, fun h4 => by rw [h4]; norm_num, fun heq hpos => ?_⟩
  rw [hmain, if_neg (by rw [heq]; nlinarith), if_pos (le_of_eq heq.symm)]

/-- Witness for C7: a four-turn log whose total return is exactly the
benchmark 0.10 (start 100 000, final 110 000) lands in the 80 tier. -/
theorem career_portfolio_score_tiers_witness :
    ((calculate_career_score sampleLog sampleClient 110000
        100000).2.map ScoreBreakdown.portfolio_score) = some 80 :=
  (career_portfolio_score_tiers sampleLog sampleClient 110000 100000
      (by simp [sampleLog])).2.2
    (by norm_num [sampleLog]) (by norm_num [sampleLog])

theorem dropWhile_length_le {α : Type} (p : α → Bool) (l : List α) :
    (l.dropWhile p).length ≤ l.length := by
  induction l with
  | nil => exact le_refl _
  | cons a t ih =>
    by_cases h : p a
    · rw [List.dropWhile_cons_of_pos h]
      exact Nat.le_succ_of_le ih
    · rw [List.dropWhile_cons_of_neg h]

theorem py_strip_length_le (l : List Char) : (py_strip l).length ≤ l.length := by
  unfold py_strip
  calc ((l.dropWhile Char.isWhitespace).reverse.dropWhile
          Char.isWhitespace).reverse.length
      = ((l.dropWhile Char.isWhitespace).reverse.dropWhile
          Char.isWhitespace).length := List.length_reverse _
    _ ≤ (l.dropWhile Char.isWhitespace).reverse.length :=
        dropWhile_length_le _ _
    _ = (l.dropWhile Char.isWhitespace).length := List.length_reverse _
    _ ≤ l.length := dropWhile_length_le _ _

/-- C8.  For advisor text shorter than 10 characters (including empty
text), free-text grading returns nothing, and no call to the external
grading collaborator is made: the result does not depend on the
collaborator at all. -/
theorem grade_free_text_short_skips (user_text : List Char)
    (collab other : Option RawGrades) (h : user_text.length < 10) :
    grade_free_text_ai user_text collab = none ∧
    grade_free_text_ai user_text collab = grade_free_text_ai user_text other := by
  have hs : (py_strip user_text).length < 10 :=
    lt_of_le_of_lt (py_strip_length_le user_text) h
  have hcond : user_text.isEmpty ∨ (py_strip user_text).length < 10 := Or.inr hs
  constructor
  · unfold grade_free_text_ai
    rw [if_pos hcond]
  · unfold grade_free_text_ai
    rw [if_pos hcond, if_pos hcond]

/-- Witness for C8: the 5-character text "short" is skipped even though a
well-formed response is available, and equally under a failing
collaborator. -/
theorem grade_free_text_short_skips_witness :
    grade_free_text_ai short_text (some ⟨2, 2, 2, 2⟩) = none ∧
    grade_free_text_ai short_text (some ⟨2, 2, 2, 2⟩) =
      grade_free_text_ai short_text none :=
  grade_free_text_short_skips short_text (some ⟨2, 2, 2, 2⟩) none
    (by decide)

/-- C9.  After a submitted turn's effects are applied and its log entry
appended, the session is game-over iff the completed turn index is ≥ 10 or
the updated client's trust is below 15 or its engagement is below 10;
otherwise the turn counter increments and the freshly generated market
turn is installed. -/
theorem submit_turn_game_over_iff (s : SessionState) (comm : CommStyle)
    (rec : Recommendation) (free_text : List Char)
    (collab : Option RawGrades) (new_market : MarketTurn)
    (h : s.game_over = false) :
    ((submit_turn s comm rec free_text collab new_market).game_over = true ↔
      (10 ≤ s.turn ∨
       (turn_effects s comm rec free_text collab).client.trust < 15 ∨
       (turn_effects s comm rec free_text collab).client.engagement < 10)) ∧
    (¬(10 ≤ s.turn ∨
       (turn_effects s comm rec free_text collab).client.trust < 15 ∨
       (turn_effects s comm rec free_text collab).client.engagement < 10) →
      (submit_turn s comm rec free_text collab new_market).turn = s.turn + 1 ∧
      (submit_turn s comm rec free_text collab new_market).market =
        new_market) := by
  by_cases hc : 10 ≤ s.turn ∨
      (turn_effects s comm rec free_text collab).client.trust < 15 ∨
      (turn_effects s comm rec free_text collab).client.engagement < 10
  · constructor
    · unfold submit_turn
      rw [if_pos hc]
      simp [hc]
    · intro hnc
      exact absurd hc hnc
  · constructor
    · unfold submit_turn
      rw [if_neg hc]
      simp [hc, h]
    · intro _
      unfold submit_turn
      rw [if_neg hc]
      exact ⟨rfl, rfl⟩

/-- Witness for C9: submitting the 10th turn flips the game-over flag. -/
theorem submit_turn_game_over_iff_witness :
    (submit_turn sampleSession .empathize .stayTheCourse [] none
      sampleMarket).game_over = true :=
  (submit_turn_game_over_iff sampleSession .empathize .stayTheCourse [] none
      sampleMarket rfl).1.mpr (Or.inl (by norm_num [sampleSession]))

end WealthSim
